import Mathlib

/-!
Verification development for `weather_football_streamlit.py`.

The script's computational core (lines 75-109) is embedded shallowly:
the CSV table `combined_data` becomes a `List MatchRow`; the four weather
columns and eight match-metric columns become total functions out of two
enumeration types; pandas column operations (`clip`, `mean`, `corr`,
`unique`, boolean-mask filtering, `sort_values`) become the corresponding
list functions over `ℚ`.  A pandas `NaN` result (mean of an empty column,
correlation of a degenerate sample) is modelled as `Option.none` where it
can reach an output row.  The Pearson coefficient
`r = Σ(x-x̄)(y-ȳ) / sqrt(Σ(x-x̄)² · Σ(y-ȳ)²)` is carried in exact form as
the pair `(Σ(x-x̄)(y-ȳ), Σ(x-x̄)²·Σ(y-ȳ)²)` of rationals; `corrValue`
interprets such a pair as the real number `n / sqrt d`.
-/

/-- The four weather observation columns offered by the sidebar
(`weather_values`, line 47 of the source). -/
inductive WeatherMetric
  | total_rainfall_amount_previous_hour
  | wind_speed_10m
  | wind_gust_10m
  | feels_like_temperature
deriving DecidableEq

/-- The eight match metric columns offered by the sidebar
(`match_metrics`, lines 48-50).  Three source column names end in a
suffix Lean's lexer reserves here, so those constructors carry a `_col`
marker; `MatchMetric.colName` records the exact source strings. -/
inductive MatchMetric
  | team_match_directness
  | team_match_pace_towards_goal
  | team_match_gk_pass_distance
  | team_match_gk_long_pass_ratio_col
  | team_match_ball_in_play_time
  | team_match_dribble_ratio_col
  | team_match_high_press_shots_conceded
  | team_match_passing_ratio_col
deriving DecidableEq

/-- The CSV column name each `MatchMetric` constructor stands for. -/
def MatchMetric.colName : MatchMetric → String
  | .team_match_directness => "team_match_directness"
  | .team_match_pace_towards_goal => "team_match_pace_towards_goal"
  | .team_match_gk_pass_distance => "team_match_gk_pass_distance"
  | .team_match_gk_long_pass_ratio_col => "team_match_gk_long_pass_ratio"
  | .team_match_ball_in_play_time => "team_match_ball_in_play_time"
  | .team_match_dribble_ratio_col => "team_match_dribble_ratio"
  | .team_match_high_press_shots_conceded => "team_match_high_press_shots_conceded"
  | .team_match_passing_ratio_col => "team_match_passing_ratio"

/-- The CSV column name each `WeatherMetric` constructor stands for. -/
def WeatherMetric.colName : WeatherMetric → String
  | .total_rainfall_amount_previous_hour => "total_rainfall_amount_previous_hour"
  | .wind_speed_10m => "wind_speed_10m"
  | .wind_gust_10m => "wind_gust_10m"
  | .feels_like_temperature => "feels_like_temperature"

/-- One row of `combined_data` (one team's statistics for one match,
plus the weather at kickoff).  The numeric weather and performance
columns are total functions from the metric enumerations to `ℚ`. -/
structure MatchRow where
  team_name : String
  opposition_name : String
  competition_name : String
  match_date : String
  kick_off : String
  home_team : String
  match_id : Nat
  weather : WeatherMetric → ℚ
  perf : MatchMetric → ℚ

/-- The column `combined_data[w]` as a list of rationals. -/
def weatherCol (w : WeatherMetric) (t : List MatchRow) : List ℚ :=
  t.map (fun r => r.weather w)

/-- The column `combined_data[m]` as a list of rationals. -/
def matchCol (m : MatchMetric) (t : List MatchRow) : List ℚ :=
  t.map (fun r => r.perf m)

/-- The column `combined_data['team_name']`. -/
def teamCol (t : List MatchRow) : List String :=
  t.map (fun r => r.team_name)

/-- pandas `Series.mean`: sum divided by length.  On an empty column
pandas yields `NaN`; every use below is on a nonempty column whenever the
value can reach an output row, so the junk value `0/0 = 0` of total
rational division is never observable. -/
def mean (xs : List ℚ) : ℚ := xs.sum / (xs.length : ℚ)

/-- Sum of squared deviations from the mean, `Σ (x - x̄)²`. -/
def sqDevSum (xs : List ℚ) : ℚ :=
  (xs.map (fun x => (x - mean xs) * (x - mean xs))).sum

/-- Sum of cross deviations from the means, `Σ (x - x̄)(y - ȳ)`. -/
def crossDevSum (xs ys : List ℚ) : ℚ :=
  ((xs.zip ys).map (fun p => (p.1 - mean xs) * (p.2 - mean ys))).sum

/-- pandas `Series.corr` (Pearson).  Pandas returns `NaN` exactly when
the sample has fewer than two points or either variance is zero; that is
`none` here.  Otherwise the coefficient `Σ(x-x̄)(y-ȳ) / sqrt(Σ(x-x̄)²·Σ(y-ȳ)²)`
is carried exactly as the pair (numerator, radicand). -/
def corr (xs ys : List ℚ) : Option (ℚ × ℚ) :=
  if xs.length < 2 ∨ sqDevSum xs = 0 ∨ sqDevSum ys = 0 then none
  else some (crossDevSum xs ys, sqDevSum xs * sqDevSum ys)

/-- The real number a stored correlation pair denotes: `n / sqrt d`. -/
noncomputable def corrValue : Option (ℚ × ℚ) → Option ℝ :=
  Option.map (fun p => (p.1 : ℝ) / Real.sqrt ((p.2 : ℚ) : ℝ))

/-- Python's `round(x, 4)` (display formatting of the season Pearson
value on line 109; tie-breaking at exact half-way points differs but is
immaterial to the claims below). -/
noncomputable def round4 (x : ℝ) : ℝ := ((round (x * 10000) : ℤ) : ℝ) / 10000

/-- pandas `Series.unique`: distinct values in order of first
appearance.  `dedup` keeps last occurrences, so deduping the reversed
list and reversing back keeps first occurrences in order. -/
def unique (l : List String) : List String := (l.reverse.dedup).reverse

/-- pandas `Series.clip(upper=u)` on one value: values above the bound
are replaced by the bound (line 76). -/
def clipUpper (u x : ℚ) : ℚ := if u < x then u else x

/-- pandas `Series.clip(upper=u)` on a whole column. -/
def clipSeries (u : ℚ) (xs : List ℚ) : List ℚ := xs.map (clipUpper u)

/-- Line 76: `combined_data[w] = combined_data[w].clip(upper=u)` —
the selected weather column is clipped in every row; all other fields
are untouched. -/
def clipColumn (w : WeatherMetric) (u : ℚ) (t : List MatchRow) : List MatchRow :=
  t.map (fun r =>
    { r with weather := fun w2 => if w2 = w then clipUpper u (r.weather w2) else r.weather w2 })

/-- Lines 75-76: the clip runs only when the sidebar checkbox is set;
otherwise the table passes through unchanged. -/
def applyWeatherUpperLimit (enabled : Bool) (w : WeatherMetric) (u : ℚ) (t : List MatchRow) :
    List MatchRow :=
  if enabled then clipColumn w u t else t

/-- One element of the `results` list (lines 91-100): a per-team summary
row of `long_data`. -/
structure TeamSummary where
  team_name : String
  weather_metric : WeatherMetric
  match_metric : MatchMetric
  average_weather_metric : ℚ
  average_match_metric : ℚ
  team_average_match_metric : ℚ
  team_average_weather_metric : ℚ
  correlation : Option (ℚ × ℚ)

/-- Lines 79-102: the aggregation loop.  For each first-appearance
distinct team name, the loop filters the table to that team's rows and
emits one summary row.  Note line 82 of the source computes
`average_match_metric` from the *weather* column
(`combined_data[selected_weather_metric].mean()`), not from the match
column; the embedding reproduces that faithfully. -/
def makeResults (w : WeatherMetric) (m : MatchMetric) (t : List MatchRow) : List TeamSummary :=
  (unique (teamCol t)).map (fun team_name =>
    let team_stats := t.filter (fun r => r.team_name == team_name)
    { team_name := team_name
      weather_metric := w
      match_metric := m
      average_weather_metric := mean (weatherCol w t)
      average_match_metric := mean (weatherCol w t)
      team_average_match_metric := mean (matchCol m team_stats)
      team_average_weather_metric := mean (weatherCol w team_stats)
      correlation := corr (weatherCol w team_stats) (matchCol m team_stats) })

/-- `sort_values("team_name")`: stable ascending sort by team name. -/
def sortByTeamName (l : List TeamSummary) : List TeamSummary :=
  l.mergeSort (fun a b => a.team_name ≤ b.team_name)

/-- Whether `n1 / sqrt d1 ≤ n2 / sqrt d2`, decided in rational
arithmetic by sign analysis and squaring (both radicands positive). -/
def ratSqrtLe (n1 d1 n2 d2 : ℚ) : Bool :=
  if n1 ≤ 0 then
    (if 0 ≤ n2 then true else decide (n2 * n2 * d1 ≤ n1 * n1 * d2))
  else
    (if n2 ≤ 0 then false else decide (n1 * n1 * d2 ≤ n2 * n2 * d1))

/-- Ascending order on stored correlation values; as in pandas
`sort_values`, undefined (`NaN`) entries sort after every number. -/
def corrLe (a b : Option (ℚ × ℚ)) : Bool :=
  match a, b with
  | none, none => true
  | none, some _ => false
  | some _, none => true
  | some p, some q => ratSqrtLe p.1 p.2 q.1 q.2

/-- `sort_values("correlation")` (line 172): stable ascending sort by
correlation value, undefined values last. -/
def sortByCorrelation (l : List TeamSummary) : List TeamSummary :=
  l.mergeSort (fun a b => corrLe a.correlation b.correlation)

/-- Lines 104-107: `filtered_metrics` — the summary rows whose stored
metric names equal the selected ones, sorted by team name.  Faithful
for a nonempty summary only: when the loop produced no rows,
`pd.DataFrame([])` on line 102 has no columns and the column lookups of
lines 104-106 raise `KeyError` in the program, whereas this typed
embedding returns `[]`. -/
def filteredMetrics (w : WeatherMetric) (m : MatchMetric) (t : List MatchRow) :
    List TeamSummary :=
  sortByTeamName ((makeResults w m t).filter
    (fun s => s.match_metric == m && s.weather_metric == w))

/-- The season-wide Pearson sample of line 109, before display rounding:
the full weather column against the full match column, all rows. -/
def seasonPearson (w : WeatherMetric) (m : MatchMetric) (t : List MatchRow) : Option (ℚ × ℚ) :=
  corr (weatherCol w t) (matchCol m t)

/-- Line 109 in full: `round(combined_data[w].corr(combined_data[m]), 4)`,
as a real number (`none` when pandas would yield `NaN`). -/
noncomputable def pearsonLine109 (w : WeatherMetric) (m : MatchMetric) (t : List MatchRow) :
    Option ℝ :=
  Option.map round4 (corrValue (seasonPearson w m t))

/-- Renaming the teams of a row (used to state that the season Pearson
value never reads team identity). -/
def retagTeam (f : String → String) (r : MatchRow) : MatchRow :=
  { r with team_name := f r.team_name }

/-- A template row for concrete test tables. -/
def exRowBase : MatchRow :=
  { team_name := "A", opposition_name := "X", competition_name := "L",
    match_date := "2023-08-12", kick_off := "15:00", home_team := "A",
    match_id := 0, weather := fun _ => 0, perf := fun _ => 0 }

/-- Row 1 of the spec's worked example: team A, w = 5, p = 1. -/
def exRowA1 : MatchRow :=
  { exRowBase with team_name := "A", weather := fun _ => 5, perf := fun _ => 1 }

/-- Row 2 of the spec's worked example: team A, w = 10, p = 2. -/
def exRowA2 : MatchRow :=
  { exRowBase with team_name := "A", weather := fun _ => 10, perf := fun _ => 2 }

/-- Row 3 of the spec's worked example: team B, w = 5, p = 3. -/
def exRowB : MatchRow :=
  { exRowBase with team_name := "B", weather := fun _ => 5, perf := fun _ => 3 }

/-- The spec's worked example table. -/
def exTable : List MatchRow := [exRowA1, exRowA2, exRowB]

/-- Concrete weather selection used in worked examples. -/
def exW : WeatherMetric := WeatherMetric.total_rainfall_amount_previous_hour

/-- Concrete match-metric selection used in worked examples. -/
def exM : MatchMetric := MatchMetric.team_match_directness

/-- Claim C5 (code bug, line 104): the aggregation loop itself does
return an empty result set on an empty table — zero summary rows and a
`NaN` (here `none`) season Pearson value, as this theorem evaluates —
but the program then raises: with `results = []`, line 102's
`pd.DataFrame([])` is a frame with no columns at all, so line 104's
`long_data['match_metric']` raises `KeyError` instead of producing the
empty filtered view the spec requires.  The theorem is therefore scoped
to the loop (lines 79-102) and line 109; the column-lookup failure of
line 104 lies below the typed-table embedding, in which a
`List TeamSummary` always "has" every column. -/
theorem c5_empty_input (w : WeatherMetric) (m : MatchMetric) :
    makeResults w m [] = [] ∧ seasonPearson w m [] = none :=
  ⟨rfl, rfl⟩

/-- Claim C7: clipping preserves length, replaces every value above the
bound by the bound, leaves values at or below the bound unchanged,
sends `[1,5,12,3]` with bound `10` to `[1,5,10,3]`, and the disabled
mode is the identity transform. -/
theorem c7_clip_pointwise (u : ℚ) (xs : List ℚ) (i : ℕ) (x : ℚ) (hx : xs[i]? = some x) :
    (clipSeries u xs).length = xs.length
    ∧ (u < x → (clipSeries u xs)[i]? = some u)
    ∧ (x ≤ u → (clipSeries u xs)[i]? = some x)
    ∧ clipSeries 10 [1, 5, 12, 3] = [1, 5, 10, 3]
    ∧ (∀ w t, applyWeatherUpperLimit false w u t = t) := by
  refine ⟨by simp [clipSeries], ?_, ?_, ?_, fun w t => rfl⟩
  · intro h
    simp [clipSeries, hx, clipUpper, if_pos h]
  · intro h
    simp [clipSeries, hx, clipUpper, if_neg (not_lt.mpr h)]
  · simp [clipSeries, clipUpper]
    norm_num

/-- Witness for C7 at the spec's example: position 2 of `[1,5,12,3]`
holds `12 > 10` and is clipped to `10`. -/
theorem c7_clip_pointwise_witness :
    (clipSeries 10 [1, 5, 12, 3])[2]? = some 10 :=
  (c7_clip_pointwise 10 [1, 5, 12, 3] 2 12 rfl).2.1 (by norm_num)

/-- Claim C8: clipping twice with the same bound equals clipping once. -/
theorem c8_clip_idempotent (u : ℚ) (xs : List ℚ) :
    clipSeries u (clipSeries u xs) = clipSeries u xs := by
  simp only [clipSeries, List.map_map]
  refine List.map_congr_left (fun x _ => ?_)
  by_cases h : u < x
  · simp [Function.comp, clipUpper, if_pos h]
  · simp [Function.comp, clipUpper, if_neg h]

/-- The summary rows carry exactly the first-appearance distinct team
names, in order. -/
theorem makeResults_map_team (w : WeatherMetric) (m : MatchMetric) (t : List MatchRow) :
    (makeResults w m t).map TeamSummary.team_name = unique (teamCol t) := by
  simp only [makeResults, List.map_map]
  exact (List.map_congr_left fun n _ => rfl).trans (List.map_id _)

/-- The metric-name filter of line 104-106 keeps every summary row: each
row stores exactly the selected metric names. -/
theorem filter_makeResults (w : WeatherMetric) (m : MatchMetric) (t : List MatchRow) :
    (makeResults w m t).filter (fun s => s.match_metric == m && s.weather_metric == w)
      = makeResults w m t := by
  refine List.filter_eq_self.mpr (fun s hs => ?_)
  simp only [makeResults, List.mem_map] at hs
  obtain ⟨n, _, rfl⟩ := hs
  simp

/-- `filtered_metrics` is a reordering (stable sort) of the loop's
summary rows. -/
theorem filteredMetrics_perm (w : WeatherMetric) (m : MatchMetric) (t : List MatchRow) :
    (filteredMetrics w m t).Perm (makeResults w m t) := by
  unfold filteredMetrics sortByTeamName
  rw [filter_makeResults]
  exact List.mergeSort_perm _ _

/-- Claim C2: the summary has exactly one row per first-appearance
distinct input team name; its team-name set equals the distinct input
team names; and the displayed `filtered_metrics` view is a permutation
of those same rows. -/
theorem c2_team_names (w : WeatherMetric) (m : MatchMetric) (t : List MatchRow) :
    (makeResults w m t).map TeamSummary.team_name = unique (teamCol t)
    ∧ ((makeResults w m t).map TeamSummary.team_name).Nodup
    ∧ (∀ n, n ∈ (makeResults w m t).map TeamSummary.team_name ↔ n ∈ teamCol t)
    ∧ (filteredMetrics w m t).Perm (makeResults w m t) := by
  refine ⟨makeResults_map_team w m t, ?_, ?_, filteredMetrics_perm w m t⟩
  · rw [makeResults_map_team]
    exact List.nodup_reverse.mpr (List.nodup_dedup _)
  · intro n
    rw [makeResults_map_team]
    simp [unique]

/-- Claim C9: the summary row order is the deterministic first-appearance
order of the input teams, and both display sort orders of the correlation
view — by team name and by correlation value — are re-orderings
(permutations) of the same `filtered_metrics` rows, with no
recomputation. -/
theorem c9_sort_orders (w : WeatherMetric) (m : MatchMetric) (t : List MatchRow) :
    (makeResults w m t).map TeamSummary.team_name = unique (teamCol t)
    ∧ (sortByTeamName (filteredMetrics w m t)).Perm (filteredMetrics w m t)
    ∧ (sortByCorrelation (filteredMetrics w m t)).Perm (filteredMetrics w m t) :=
  ⟨makeResults_map_team w m t, List.mergeSort_perm _ _, List.mergeSort_perm _ _⟩

/-- Claim C3: a summary row whose team has fewer than two matches, or
zero variance in the selected weather metric or the selected match
metric over its rows, carries the explicit undefined correlation marker
`none`; the aggregation is a total function, so nothing is raised. -/
theorem c3_degenerate_corr (w : WeatherMetric) (m : MatchMetric) (t : List MatchRow)
    (i : ℕ) (n : String) (hn : (unique (teamCol t))[i]? = some n)
    (hdeg : (t.filter (fun r => r.team_name == n)).length < 2
      ∨ sqDevSum (weatherCol w (t.filter (fun r => r.team_name == n))) = 0
      ∨ sqDevSum (matchCol m (t.filter (fun r => r.team_name == n))) = 0) :
    ((makeResults w m t)[i]?).map TeamSummary.correlation = some none := by
  have hlen : (weatherCol w (t.filter (fun r => r.team_name == n))).length
      = (t.filter (fun r => r.team_name == n)).length := by simp [weatherCol]
  simp only [makeResults, List.getElem?_map, hn, Option.map_some]
  simp only [Option.map, Option.some.injEq]
  rw [corr, if_pos]
  rw [hlen]
  exact hdeg

/-- Witness for C3: a single-match team (team B alone) gets `none`. -/
theorem c3_degenerate_corr_witness :
    ((makeResults exW exM [exRowB])[0]?).map TeamSummary.correlation = some none :=
  c3_degenerate_corr exW exM [exRowB] 0 "B" (by decide) (Or.inl (by decide))

/-- `corrValue` on a defined pair, unfolded. -/
theorem corrValue_some (n d : ℚ) :
    corrValue (some (n, d)) = some ((n : ℝ) / Real.sqrt ((d : ℚ) : ℝ)) := rfl

/-- First-appearance distinct teams of the worked example table. -/
theorem exUnique : unique (teamCol exTable) = ["A", "B"] := by decide

/-- Team A's rows of the worked example table. -/
theorem exStatsA : exTable.filter (fun r => r.team_name == "A") = [exRowA1, exRowA2] := rfl

/-- Team B's rows of the worked example table. -/
theorem exStatsB : exTable.filter (fun r => r.team_name == "B") = [exRowB] := rfl

/-- Pearson data of team A in the worked example:
numerator `Σ(x-x̄)(y-ȳ) = 5/2`, radicand `Σ(x-x̄)²·Σ(y-ȳ)² = 25/4`. -/
theorem exCorrA :
    corr (weatherCol exW [exRowA1, exRowA2]) (matchCol exM [exRowA1, exRowA2])
      = some (5/2, 25/4) := by
  norm_num [corr, sqDevSum, crossDevSum, mean, weatherCol, matchCol,
    exRowA1, exRowA2, exRowBase]

/-- Pearson of team B's single row is undefined. -/
theorem exCorrB :
    corr (weatherCol exW [exRowB]) (matchCol exM [exRowB]) = none := by
  rw [corr, if_pos]
  left
  norm_num [weatherCol]

/-- Team A's stored Pearson data denotes the real number 1. -/
theorem exCorrValA : corrValue (some ((5:ℚ)/2, (25:ℚ)/4)) = some 1 := by
  rw [corrValue_some]
  have h1 : (((25:ℚ)/4 : ℚ) : ℝ) = (5/2)^2 := by push_cast; norm_num
  rw [h1, Real.sqrt_sq (by norm_num : (0:ℝ) ≤ 5/2)]
  push_cast
  norm_num

/-- Claim C6: each summary row's team averages are the means over that
team's rows only and its correlation is the Pearson coefficient over
that team's rows only; on the spec's worked example
`[{A,5,1}, {A,10,2}, {B,5,3}]` team A gets team averages `15/2` and
`3/2` with correlation exactly `1`, and team B's correlation is
undefined. -/
theorem c6_team_stats :
    (∀ (w : WeatherMetric) (m : MatchMetric) (t : List MatchRow) (i : ℕ),
      ((makeResults w m t)[i]?).map TeamSummary.team_average_weather_metric
      = ((unique (teamCol t))[i]?).map
          (fun n => mean (weatherCol w (t.filter (fun r => r.team_name == n)))))
    ∧ (∀ (w : WeatherMetric) (m : MatchMetric) (t : List MatchRow) (i : ℕ),
      ((makeResults w m t)[i]?).map TeamSummary.team_average_match_metric
      = ((unique (teamCol t))[i]?).map
          (fun n => mean (matchCol m (t.filter (fun r => r.team_name == n)))))
    ∧ (∀ (w : WeatherMetric) (m : MatchMetric) (t : List MatchRow) (i : ℕ),
      ((makeResults w m t)[i]?).map TeamSummary.correlation
      = ((unique (teamCol t))[i]?).map
          (fun n => corr (weatherCol w (t.filter (fun r => r.team_name == n)))
            (matchCol m (t.filter (fun r => r.team_name == n)))))
    ∧ (makeResults exW exM exTable).map
        (fun s => (s.team_name, s.team_average_weather_metric, s.team_average_match_metric))
      = [("A", 15/2, 3/2), ("B", 5, 3)]
    ∧ (makeResults exW exM exTable).map (fun s => corrValue s.correlation)
      = [some 1, none] := by
  refine ⟨?_, ?_, ?_, ?_, ?_⟩
  · intro w m t i
    simp only [makeResults, List.getElem?_map]
    cases (unique (teamCol t))[i]? <;> rfl
  · intro w m t i
    simp only [makeResults, List.getElem?_map]
    cases (unique (teamCol t))[i]? <;> rfl
  · intro w m t i
    simp only [makeResults, List.getElem?_map]
    cases (unique (teamCol t))[i]? <;> rfl
  · simp only [makeResults, exUnique, List.map_cons, List.map_nil]
    rw [exStatsA, exStatsB]
    norm_num [mean, weatherCol, matchCol, exRowA1, exRowA2, exRowB, exRowBase]
  · simp only [makeResults, exUnique, List.map_cons, List.map_nil]
    rw [exStatsA, exStatsB]
    simp only [exCorrA, exCorrB, exCorrValA]
    rfl

/-- Claim C1 (code bug, line 82): with the single-row table
`[{A, w=5, p=1}]` the emitted `average_match_metric` is `5` — the mean
of the *weather* column — while the mean of the selected match-metric
column is `1`; the `average_weather_metric` side does come from the
weather column as specified. -/
theorem c1_global_average_from_weather_column :
    (makeResults exW exM [exRowA1]).map TeamSummary.average_match_metric = [5]
    ∧ mean (matchCol exM [exRowA1]) = 1
    ∧ (makeResults exW exM [exRowA1]).map TeamSummary.average_weather_metric
        = [mean (weatherCol exW [exRowA1])]
    ∧ (5:ℚ) ≠ 1 := by
  have h : unique (teamCol [exRowA1]) = ["A"] := by decide
  refine ⟨?_, ?_, ?_, by norm_num⟩
  · simp only [makeResults, h, List.map_cons, List.map_nil]
    norm_num [mean, weatherCol, exRowA1, exRowBase]
  · norm_num [mean, matchCol, exRowA1, exRowBase]
  · simp only [makeResults, h, List.map_cons, List.map_nil]

/-- Claim C10: the enabled clip rewrites only the selected weather
column — row count, team names, every match-metric column, every other
weather column, and the remaining row fields are unchanged, and the
selected column is clipped pointwise. -/
theorem c10_clip_frame (w : WeatherMetric) (u : ℚ) (t : List MatchRow) (i : ℕ) :
    (clipColumn w u t).length = t.length
    ∧ ((clipColumn w u t)[i]?).map MatchRow.team_name = (t[i]?).map MatchRow.team_name
    ∧ (∀ m, ((clipColumn w u t)[i]?).map (fun r => r.perf m)
        = (t[i]?).map (fun r => r.perf m))
    ∧ (∀ w2, w2 ≠ w → ((clipColumn w u t)[i]?).map (fun r => r.weather w2)
        = (t[i]?).map (fun r => r.weather w2))
    ∧ ((clipColumn w u t)[i]?).map (fun r => r.weather w)
        = (t[i]?).map (fun r => clipUpper u (r.weather w))
    ∧ ((clipColumn w u t)[i]?).map MatchRow.opposition_name
        = (t[i]?).map MatchRow.opposition_name
    ∧ ((clipColumn w u t)[i]?).map MatchRow.home_team = (t[i]?).map MatchRow.home_team := by
  refine ⟨by simp [clipColumn], ?_, ?_, ?_, ?_, ?_, ?_⟩
  · simp only [clipColumn, List.getElem?_map]
    cases t[i]? <;> rfl
  · intro m
    simp only [clipColumn, List.getElem?_map]
    cases t[i]? <;> rfl
  · intro w2 hne
    simp only [clipColumn, List.getElem?_map]
    cases t[i]? with
    | none => rfl
    | some r => simp [if_neg hne]
  · simp only [clipColumn, List.getElem?_map]
    cases t[i]? with
    | none => rfl
    | some r => simp
  · simp only [clipColumn, List.getElem?_map]
    cases t[i]? <;> rfl
  · simp only [clipColumn, List.getElem?_map]
    cases t[i]? <;> rfl

/-- Witness for C10: clipping rainfall in the worked example table
leaves the wind-speed value of row 0 untouched. -/
theorem c10_clip_frame_witness :
    ((clipColumn WeatherMetric.total_rainfall_amount_previous_hour 3 exTable)[0]?).map
        (fun r => r.weather WeatherMetric.wind_speed_10m)
      = (exTable[0]?).map (fun r => r.weather WeatherMetric.wind_speed_10m) :=
  (c10_clip_frame WeatherMetric.total_rainfall_amount_previous_hour 3 exTable 0).2.2.2.1
    WeatherMetric.wind_speed_10m (by decide)

/-- The mean is invariant under permutation of the sample. -/
theorem mean_perm {xs ys : List ℚ} (h : xs.Perm ys) : mean xs = mean ys := by
  simp [mean, h.sum_eq, h.length_eq]

/-- The squared-deviation sum is invariant under permutation. -/
theorem sqDevSum_perm {xs ys : List ℚ} (h : xs.Perm ys) : sqDevSum xs = sqDevSum ys := by
  unfold sqDevSum
  rw [mean_perm h]
  exact (h.map _).sum_eq

/-- The cross-deviation sum of two columns of one table is invariant
under permutation of the table's rows. -/
theorem crossDevSum_table_perm (w : WeatherMetric) (m : MatchMetric)
    {t t' : List MatchRow} (h : t.Perm t') :
    crossDevSum (weatherCol w t) (matchCol m t)
      = crossDevSum (weatherCol w t') (matchCol m t') := by
  have hW : (weatherCol w t).Perm (weatherCol w t') := h.map _
  have hM : (matchCol m t).Perm (matchCol m t') := h.map _
  have hzip : (weatherCol w t).zip (matchCol m t)
      = t.map (fun r => (r.weather w, r.perf m)) := List.zip_map' _ _ _
  have hzip2 : (weatherCol w t').zip (matchCol m t')
      = t'.map (fun r => (r.weather w, r.perf m)) := List.zip_map' _ _ _
  unfold crossDevSum
  rw [hzip, hzip2, mean_perm hW, mean_perm hM, List.map_map, List.map_map]
  exact (h.map _).sum_eq

/-- The season Pearson sample is invariant under permutation of rows. -/
theorem seasonPearson_perm (w : WeatherMetric) (m : MatchMetric)
    {t t' : List MatchRow} (h : t.Perm t') :
    seasonPearson w m t = seasonPearson w m t' := by
  have hW : (weatherCol w t).Perm (weatherCol w t') := h.map _
  have hM : (matchCol m t).Perm (matchCol m t') := h.map _
  unfold seasonPearson corr
  rw [hW.length_eq, sqDevSum_perm hW, sqDevSum_perm hM, crossDevSum_table_perm w m h]

/-- Renaming teams does not change a weather column. -/
theorem weatherCol_retag (w : WeatherMetric) (f : String → String) (t : List MatchRow) :
    weatherCol w (t.map (retagTeam f)) = weatherCol w t := by
  simp only [weatherCol, List.map_map]
  rfl

/-- Renaming teams does not change a match-metric column. -/
theorem matchCol_retag (m : MatchMetric) (f : String → String) (t : List MatchRow) :
    matchCol m (t.map (retagTeam f)) = matchCol m t := by
  simp only [matchCol, List.map_map]
  rfl

/-- Claim C4: the season-wide Pearson value of line 109 is exactly the
correlation of the full weather column against the full match column,
and it is independent of team grouping: reordering the rows in any way,
or renaming every team, leaves it (and its rounded displayed form)
unchanged. -/
theorem c4_season_pearson (w : WeatherMetric) (m : MatchMetric) (t t' : List MatchRow)
    (f : String → String) (h : t.Perm t') :
    seasonPearson w m t = corr (weatherCol w t) (matchCol m t)
    ∧ seasonPearson w m t' = seasonPearson w m t
    ∧ pearsonLine109 w m t' = pearsonLine109 w m t
    ∧ seasonPearson w m (t.map (retagTeam f)) = seasonPearson w m t := by
  refine ⟨rfl, (seasonPearson_perm w m h).symm, ?_, ?_⟩
  · unfold pearsonLine109
    rw [seasonPearson_perm w m h]
  · unfold seasonPearson corr
    rw [weatherCol_retag, matchCol_retag]

/-- Witness for C4: swapping the two rows of team A's example table
leaves the season Pearson sample unchanged. -/
theorem c4_season_pearson_witness :
    seasonPearson exW exM [exRowA2, exRowA1] = seasonPearson exW exM [exRowA1, exRowA2] :=
  (c4_season_pearson exW exM [exRowA1, exRowA2] [exRowA2, exRowA1] id
    (List.Perm.swap exRowA2 exRowA1 [])).2.1
